import Mathlib

/-!
Shallow embedding of the webcamize capture tool (variant `webcamize.c`, v2.0.1,
given as `src/unnamed/part_004`; the older v2.0.0 `src/webcamize.c` shares the
same structure with RGB24 instead of YUYV as target format).

The embedding covers:
 * the stateful FFmpeg-based format converter `convert_ffmpeg`
   (decoder context / rescale context / reusable output buffer);
 * the per-iteration capture loop body of `main` (capture, convert-or-raw
   fallback, file sink or V4L2 sink write, pacing sleep);
 * the CLI option processing `cli` and the exit-code computation of `main`
   including the cleanup block;
 * the v4l2loopback device creation `init_v4l2_device` (LOOP_CTL_ADD retry).

External collaborators (gphoto2, libavcodec, libswscale, the kernel) are
modelled by outcome fields in environment records: each fallible library call
is represented by a boolean or integer result chosen by the environment, and
the embedding reproduces exactly the C control flow around those results.
-/

namespace Webcamize

/-- Log levels of the C `LogLevel` enum (part_004 line 38). -/
inductive LogLevel
  | debug
  | info
  | warn
  | fatal
deriving DecidableEq, Repr

/-- The diagnostic messages the claims refer to. Messages that carry the
bytes-written / bytes-expected counts keep them as payload. -/
inductive LogMsg
  | failedCapture
  | failedGetData
  | convertFailed
  | shortWriteFile (wrote expected : Int)
  | failedWriteV4l2
  | shortWriteV4l2 (wrote expected : Int)
  | failedFormatSet
  | removeFailed
deriving DecidableEq, Repr

abbrev LogEntry := LogLevel × LogMsg

/-! ## Format converter (`convert_ffmpeg`, part_004 lines 596-821) -/

/-- Persistent converter state: the C globals `decoder_ctx`, `sws_ctx`,
`ffmpeg_output_buffer`, `ffmpeg_output_buffer_size`, `width`, `height`
(part_004 lines 42-44, 218-225). Pointer identity of the decoder context,
the rescale context and the buffer is modelled by generation counters that
are bumped each time the corresponding object is (re)created. The rescale
context additionally records the (width, height) it was created for. -/
structure ConvState where
  dec : Bool
  decGen : Nat
  sws : Option (Nat × Nat)
  swsGen : Nat
  bufAlloc : Bool
  bufCap : Nat
  bufGen : Nat
  width : Nat
  height : Nat
deriving DecidableEq, Repr

/-- Initial values of the C globals: null pointers, zero capacity,
`width = 640`, `height = 480` (part_004 lines 43-44, 218-225). -/
def init_conv : ConvState :=
  { dec := false, decGen := 0, sws := none, swsGen := 0,
    bufAlloc := false, bufCap := 0, bufGen := 0, width := 640, height := 480 }

/-- Environment outcomes for the library calls made by one `convert_ffmpeg`
call: success of the one-time decoder initialization sequence (lines 602-743)
together with the stream dimensions it discovers, success of
`avcodec_send_packet` / `avcodec_receive_frame`, the decoded frame's
dimensions, and success of `sws_getContext`, `av_image_fill_arrays`
and `sws_scale`. -/
structure FrameEvent where
  initOk : Bool
  initW : Nat
  initH : Nat
  sendOk : Bool
  recvOk : Bool
  frameW : Nat
  frameH : Nat
  swsInitOk : Bool
  fillOk : Bool
  scaleOk : Bool
deriving DecidableEq, Repr

/-- All library calls of a convert call succeed (a "valid frame"). -/
def FrameEvent.allOk (e : FrameEvent) : Bool :=
  e.initOk && e.sendOk && e.recvOk && e.swsInitOk && e.fillOk && e.scaleOk

/-- Failure modes of `convert_ffmpeg` (all reported as `return -1` in C). -/
inductive ConvErr
  | initFailed
  | decodeFailed
  | swsInitFailed
  | fillFailed
  | scaleFailed
deriving DecidableEq, Repr

/-- Model of `av_image_get_buffer_size(AV_PIX_FMT_YUYV422, w, h, 1)`:
YUYV422 is a packed format with 2 bytes per pixel, so at alignment 1 the
required size is `w * h * 2` (part_004 lines 194-195 use the same formula). -/
def image_buffer_size (w h : Nat) : Nat := w * h * 2

/-- State after the one-time initialization block (lines 602-743): if the
decoder context already exists the block is skipped; otherwise (on success)
the decoder is created and `width` / `height` take the discovered stream
dimensions (lines 734-735). -/
def post_init (s : ConvState) (e : FrameEvent) : ConvState :=
  if s.dec then s
  else { s with dec := true, decGen := s.decGen + 1, width := e.initW, height := e.initH }

/-- The condition of line 765:
`!sws_ctx || width != input_frame->width || height != input_frame->height`. -/
def needs_reinit (s : ConvState) (e : FrameEvent) : Bool :=
  s.sws.isNone || s.width ≠ e.frameW || s.height ≠ e.frameH

/-- Lines 766-774: record the new dimensions, free the old rescale context
and create a new one for them. -/
def sws_update (s : ConvState) (w h : Nat) : ConvState :=
  { s with sws := some (w, h), swsGen := s.swsGen + 1, width := w, height := h }

/-- Lines 781-793: reallocate the output buffer only when there is none yet
or the newly required size exceeds the stored capacity; otherwise keep it. -/
def buf_update (s : ConvState) (newSize : Nat) : ConvState :=
  if !s.bufAlloc || newSize > s.bufCap then
    { s with bufAlloc := true, bufCap := newSize, bufGen := s.bufGen + 1 }
  else s

/-- Lines 796-818: set up the output frame (`av_image_fill_arrays`), run
`sws_scale` (non-positive result returns -1), and on success report the
buffer's allocated size into `*output_data_size` (line 818). -/
def convert_scale (s3 : ConvState) (e : FrameEvent) : ConvState × Except ConvErr Nat :=
  if !e.fillOk then (s3, Except.error ConvErr.fillFailed)
  else if !e.scaleOk then (s3, Except.error ConvErr.scaleFailed)
  else (s3, Except.ok s3.bufCap)

/-- Lines 745-818, starting from the state `s1` left by the initialization
block: send packet / receive frame (failure returns -1 with no further state
change); then, when line 765's condition holds, the rescale context, buffer
and output frame are redone; finally `sws_scale` runs. When no
reinitialization is needed only `sws_scale` runs. -/
def convert_core (s1 : ConvState) (e : FrameEvent) : ConvState × Except ConvErr Nat :=
  if !e.sendOk || !e.recvOk then
    (s1, Except.error ConvErr.decodeFailed)
  else if needs_reinit s1 e then
    if !e.swsInitOk then
      ({ s1 with sws := none, width := e.frameW, height := e.frameH },
       Except.error ConvErr.swsInitFailed)
    else
      convert_scale
        (buf_update (sws_update s1 e.frameW e.frameH) (image_buffer_size e.frameW e.frameH)) e
  else
    if !e.scaleOk then (s1, Except.error ConvErr.scaleFailed)
    else (s1, Except.ok s1.bufCap)

/-- `convert_ffmpeg` (part_004 lines 596-821). Returns the updated persistent
state and either an error or the value stored into `*output_data_size`.
A failure anywhere inside the one-time initialization frees the
partially-built objects and leaves the persistent globals null (state
unchanged); otherwise the per-frame pipeline `convert_core` runs on the
post-initialization state. -/
def convert_ffmpeg (s : ConvState) (e : FrameEvent) : ConvState × Except ConvErr Nat :=
  if !s.dec && !e.initOk then
    (s, Except.error ConvErr.initFailed)
  else
    convert_core (post_init s e) e

/-- Iterated converter: the state after a sequence of `convert_ffmpeg` calls. -/
def run_conv (s : ConvState) : List FrameEvent → ConvState
  | [] => s
  | e :: es => run_conv (convert_ffmpeg s e).1 es

/-- A frame event in which every library call succeeds, with 4×2 dimensions. -/
def evAll : FrameEvent :=
  { initOk := true, initW := 4, initH := 2, sendOk := true, recvOk := true,
    frameW := 4, frameH := 2, swsInitOk := true, fillOk := true, scaleOk := true }

/-! ## Pacer (part_004 lines 482-549) -/

/-- `target_frame_time = 1000000000L / target_fps` (part_004 line 486).
In C, integer division by zero is undefined behavior (on common targets a
SIGFPE); the model returns `none` in that case. -/
def compute_target_frame_time (fps : Int) : Option Int :=
  if fps = 0 then none else some (1000000000 / fps)

/-- The nanoseconds slept at `loop_end` (part_004 lines 543-548): if the
elapsed monotonic time `frame_time` is below `target_frame_time`, sleep the
difference, otherwise do not sleep. -/
def pacer_sleep (target elapsed : Int) : Int :=
  if elapsed < target then target - elapsed else 0

/-! ## Output sinks -/

/-- `write_to_v4l2_device` (part_004 lines 206-215): `write` returning a
negative count is fatal (`return -1`); writing fewer bytes than requested
only logs a warning with the two counts and the function returns 0. -/
def write_to_v4l2_device (n data_size : Int) : List LogEntry × Int :=
  if n < 0 then ([(LogLevel.fatal, LogMsg.failedWriteV4l2)], -1)
  else if n ≠ data_size then ([(LogLevel.warn, LogMsg.shortWriteV4l2 n data_size)], 0)
  else ([], 0)

/-! ## Capture-loop iteration (body of the `while (alive)` loop,
part_004 lines 487-550) -/

/-- Which sink is active for the run: `file_sink != -1`, else the V4L2
device when `v4l2_fd > 0`, else none. -/
inductive SinkKind
  | fileSink
  | v4l2Sink
  | noSink
deriving DecidableEq, Repr

/-- Per-run configuration fixed before the loop. -/
structure Config where
  no_convert : Bool
  sink : SinkKind
  target_frame_time : Int
deriving DecidableEq, Repr

/-- Loop-carried mutable state: the converter globals and
`v4l2_need_format_set` (part_004 line 75). -/
structure LoopState where
  conv : ConvState
  needFormatSet : Bool
deriving DecidableEq, Repr

/-- Environment outcomes for one loop iteration: results of
`gp_camera_capture_preview` and `gp_file_get_data_and_size` (0 is `GP_OK`),
the raw frame size, the converter call outcomes, the byte count returned by
the sink `write`, the `errno` value read after a file-sink write, the
outcome of `setup_v4l2_format`, and the measured elapsed time. -/
structure IterEnv where
  captureRet : Int
  getDataRet : Int
  rawSize : Nat
  fe : FrameEvent
  writeN : Int
  errnoVal : Int
  fmtSetOk : Bool
  elapsed : Int
deriving DecidableEq, Repr

/-- How a loop iteration ends: `next sleep` reaches `loop_end` and the loop
continues after sleeping `sleep` nanoseconds; `halt ret` leaves the loop
(`break` or `goto cleanup`) with `ret` holding the given value. -/
inductive LoopCtl
  | next (sleep : Int)
  | halt (ret : Int)
deriving DecidableEq, Repr

/-- Everything one loop iteration produces. `outputIsRaw` records whether
`output_data` aliases the raw captured bytes (conversion disabled or failed)
rather than the converter's buffer; `outputSize` is `output_data_size`. -/
structure IterResult where
  state : LoopState
  ctl : LoopCtl
  logs : List LogEntry
  outputIsRaw : Bool
  outputSize : Int
deriving DecidableEq, Repr

/-- Outcome of the convert-or-fallback step (part_004 lines 501-511). -/
structure ConvOutcome where
  conv : ConvState
  isRaw : Bool
  size : Int
  logs : List LogEntry
deriving DecidableEq, Repr

/-- Lines 501-511: attempt `convert_ffmpeg` when conversion is enabled; on
failure log a warning and substitute the raw frame bytes and size for this
iteration; with `--no-convert` always use the raw bytes. -/
def convert_step (noConv : Bool) (c : ConvState) (e : FrameEvent) (rawSize : Nat) :
    ConvOutcome :=
  if noConv then
    { conv := c, isRaw := true, size := (rawSize : Int), logs := [] }
  else
    match (convert_ffmpeg c e).2 with
    | Except.ok sz =>
      { conv := (convert_ffmpeg c e).1, isRaw := false, size := (sz : Int), logs := [] }
    | Except.error _ =>
      { conv := (convert_ffmpeg c e).1, isRaw := true, size := (rawSize : Int),
        logs := [(LogLevel.warn, LogMsg.convertFailed)] }

/-- One iteration of the capture loop (part_004 lines 487-550):
 * lines 490-499: capture and data retrieval; a non-`GP_OK` result logs a
   fatal message and breaks with that result in `ret`;
 * lines 501-511: convert or fall back to the raw bytes;
 * lines 513-522: file sink: one `write`; a count different from
   `output_data_size` sets `ret = errno`, logs a fatal message naming the
   two counts, and breaks; on success control jumps to `loop_end`;
 * lines 524-540: V4L2 sink: a pending format set is performed first
   (failure jumps to cleanup with the -1 from `setup_v4l2_format`);
   then `write_to_v4l2_device`; a -1 result logs fatal and breaks;
 * lines 542-549: `loop_end` computes the pacing sleep. -/
def sink_step : SinkKind → Config → LoopState → IterEnv → ConvOutcome → IterResult
    | SinkKind.fileSink, cfg, s, env, co =>
      if env.writeN ≠ co.size then
        { state := { s with conv := co.conv }, ctl := LoopCtl.halt env.errnoVal,
          logs := co.logs ++ [(LogLevel.fatal, LogMsg.shortWriteFile env.writeN co.size)],
          outputIsRaw := co.isRaw, outputSize := co.size }
      else
        { state := { s with conv := co.conv },
          ctl := LoopCtl.next (pacer_sleep cfg.target_frame_time env.elapsed),
          logs := co.logs, outputIsRaw := co.isRaw, outputSize := co.size }
    | SinkKind.v4l2Sink, cfg, s, env, co =>
      if s.needFormatSet && !env.fmtSetOk then
        { state := { s with conv := co.conv }, ctl := LoopCtl.halt (-1),
          logs := co.logs ++ [(LogLevel.fatal, LogMsg.failedFormatSet)],
          outputIsRaw := co.isRaw, outputSize := co.size }
      else
        let wr := write_to_v4l2_device env.writeN co.size
        if wr.2 < 0 then
          { state := { s with conv := co.conv, needFormatSet := false },
            ctl := LoopCtl.halt (-1),
            logs := co.logs ++ wr.1, outputIsRaw := co.isRaw, outputSize := co.size }
        else
          { state := { s with conv := co.conv, needFormatSet := false },
            ctl := LoopCtl.next (pacer_sleep cfg.target_frame_time env.elapsed),
            logs := co.logs ++ wr.1, outputIsRaw := co.isRaw, outputSize := co.size }
    | SinkKind.noSink, cfg, s, env, co =>
      { state := { s with conv := co.conv },
        ctl := LoopCtl.next (pacer_sleep cfg.target_frame_time env.elapsed),
        logs := co.logs, outputIsRaw := co.isRaw, outputSize := co.size }

/-- One full iteration: capture and data retrieval (a non-`GP_OK` result
logs a fatal message and breaks with that result in `ret`, part_004 lines
490-499), then the convert-or-fallback step and the sink handling. -/
def loop_iter (cfg : Config) (s : LoopState) (env : IterEnv) : IterResult :=
  if env.captureRet ≠ 0 then
    { state := s, ctl := LoopCtl.halt env.captureRet,
      logs := [(LogLevel.fatal, LogMsg.failedCapture)],
      outputIsRaw := true, outputSize := 0 }
  else if env.getDataRet ≠ 0 then
    { state := s, ctl := LoopCtl.halt env.getDataRet,
      logs := [(LogLevel.fatal, LogMsg.failedGetData)],
      outputIsRaw := true, outputSize := 0 }
  else
    sink_step cfg.sink cfg s env (convert_step cfg.no_convert s.conv env.fe env.rawSize)

/-! ## CLI (`cli`, part_004 lines 823-960) -/

/-- Options as they come out of `getopt_long`, with the environment facts
each case branches on (whether an argument was supplied, whether a file
opened, the parsed integer value, whether a log level string was valid). -/
inductive CliOpt
  | version
  | status
  | help
  | noConvert
  | noColorOpt
  | noV4l2loopback
  | waitOpt
  | camera (present : Bool)
  | fileOpt (pathGiven openOk : Bool)
  | fps (given : Bool) (v : Int)
  | device (given : Bool) (v : Int)
  | logLevelOpt (valid : Bool)
  | unknown
deriving DecidableEq, Repr

/-- The configuration fields of interest accumulated by `cli`. -/
structure CliState where
  target_fps : Int
  no_convert : Bool
deriving DecidableEq, Repr

/-- Global defaults (part_004 lines 45-46): `target_fps = 60`,
`no_convert = false`. -/
def cli_defaults : CliState := { target_fps := 60, no_convert := false }

/-- `cli` (part_004 lines 823-960) as a fold over the option stream,
returning the function's return value paired with the accumulated state.
`--version`, `--status` and `--help` return -1 (lines 846-848, 935-941);
argument errors return 1; the other handled cases continue the `getopt`
loop; falling off the end returns 0 (line 959). `--fps` stores any
non-negative value, including 0 (lines 885-896). Note `'w'` appears in the
option table and optstring (lines 834, 844) but the switch has no `case`
for it, so `--wait` falls into the `default:` branch (lines 952-955),
which prints usage, logs a fatal message and returns 1. -/
def cli_run (st : CliState) : List CliOpt → Int × CliState
  | [] => (0, st)
  | o :: os =>
    match o with
    | CliOpt.version => (-1, st)
    | CliOpt.status => (-1, st)
    | CliOpt.help => (-1, st)
    | CliOpt.noConvert => cli_run { st with no_convert := true } os
    | CliOpt.noColorOpt => cli_run st os
    | CliOpt.noV4l2loopback => cli_run st os
    | CliOpt.waitOpt => (1, st)
    | CliOpt.camera present => if present then cli_run st os else (1, st)
    | CliOpt.fileOpt pathGiven openOk =>
      if pathGiven && !openOk then (1, st) else cli_run st os
    | CliOpt.fps given v =>
      if given then
        if v < 0 then (1, st) else cli_run { st with target_fps := v } os
      else (1, st)
    | CliOpt.device given _ => if given then cli_run st os else (1, st)
    | CliOpt.logLevelOpt valid => if valid then cli_run st os else (1, st)
    | CliOpt.unknown => (1, st)

/-! ## Exit-code computation of `main` (part_004 lines 237-239, 552-593) -/

/-- The value `main` returns. Lines 238-239: a nonzero `cli` result is
returned directly (so -1 for the informational options). Otherwise `ret`
holds the result of the last operation when control reaches `cleanup`;
lines 562-570 overwrite `ret` with the result of the `LOOP_CTL_REMOVE`
ioctl whenever the loopback control fd is open; line 593 maps the final
`ret` to the process exit code `ret < 0 ? 1 : 0`. -/
def main_exit (cliRet loopRet : Int) (loopbackOpen : Bool) (removeRet : Int) : Int :=
  if cliRet ≠ 0 then cliRet
  else
    let finalRet := if loopbackOpen then removeRet else loopRet
    if finalRet < 0 then 1 else 0

/-- The warnings emitted by the cleanup block when device removal fails
(part_004 lines 564-567); close results are ignored. -/
def cleanup_logs (loopbackOpen : Bool) (removeRet : Int) : List LogEntry :=
  if loopbackOpen && decide (removeRet < 0) then [(LogLevel.warn, LogMsg.removeFailed)]
  else []

/-! ## Loopback device creation (`init_v4l2_device`, part_004 lines 96-183) -/

/-- The LOOP_CTL_ADD sequence (lines 141-152). `addRet r` is the ioctl
result when requesting output number `r` (the created device number on
success, negative on failure). A failed attempt at the requested number is
retried once with the automatic number -1; only a second failure is fatal
(`none`). On success `v4l2_dev_num` becomes the ioctl result. -/
def create_loopback_device (addRet : Int → Int) (requested : Int) : Option Int :=
  let r := addRet requested
  if r < 0 then
    let r2 := addRet (-1)
    if r2 < 0 then none else some r2
  else some r

/-! ## Helper lemmas about the converter state machine -/

/-- Invariant maintained by `convert_ffmpeg` across a run: before the decoder
exists there is no rescale context and no buffer; an unallocated buffer has
capacity 0; and when a rescale context exists it was created for the current
`width` / `height` and the buffer capacity covers the image size at those
dimensions. -/
def ConvInv (s : ConvState) : Prop :=
  (s.dec = false → s.sws = none ∧ s.bufAlloc = false) ∧
  (s.bufAlloc = false → s.bufCap = 0) ∧
  (∀ w h, s.sws = some (w, h) → s.width = w ∧ s.height = h ∧
    image_buffer_size w h ≤ s.bufCap)

theorem convInv_init : ConvInv init_conv := by
  refine ⟨fun _ => ⟨rfl, rfl⟩, fun _ => rfl, fun w h hwh => ?_⟩
  simp [init_conv] at hwh

theorem post_init_dec (s : ConvState) (e : FrameEvent) : (post_init s e).dec = true := by
  unfold post_init
  split
  · assumption
  · rfl

theorem post_init_of_dec (s : ConvState) (e : FrameEvent) (h : s.dec = true) :
    post_init s e = s := by
  unfold post_init
  simp [h]

theorem buf_update_fields (s : ConvState) (n : Nat) :
    (buf_update s n).sws = s.sws ∧ (buf_update s n).swsGen = s.swsGen ∧
    (buf_update s n).width = s.width ∧ (buf_update s n).height = s.height ∧
    (buf_update s n).dec = s.dec ∧ (buf_update s n).decGen = s.decGen := by
  unfold buf_update
  split <;> simp

theorem buf_update_cap_ge (s : ConvState) (n : Nat) : n ≤ (buf_update s n).bufCap := by
  unfold buf_update
  split
  · simp
  · rename_i hcond
    simp only [Bool.or_eq_true, Bool.not_eq_true', decide_eq_true_eq, not_or, gt_iff_lt,
      not_lt] at hcond
    exact hcond.2

theorem buf_update_cap_mono (s : ConvState) (n : Nat) (h0 : s.bufAlloc = false → s.bufCap = 0) :
    s.bufCap ≤ (buf_update s n).bufCap := by
  unfold buf_update
  split
  · rename_i hcond
    simp only [Bool.or_eq_true, Bool.not_eq_true', decide_eq_true_eq, gt_iff_lt] at hcond
    rcases hcond with hna | hlt
    · simp [h0 hna]
    · exact le_of_lt hlt
  · exact le_refl _

theorem buf_update_gen (s : ConvState) (n : Nat) (hba : s.bufAlloc = true)
    (hgen : (buf_update s n).bufGen ≠ s.bufGen) : s.bufCap < n := by
  unfold buf_update at hgen
  by_cases hc : (!s.bufAlloc || decide (n > s.bufCap)) = true
  · simp only [hba, Bool.not_true, Bool.false_or, decide_eq_true_eq, gt_iff_lt] at hc
    exact hc
  · rw [if_neg hc] at hgen
    exact absurd rfl hgen

theorem convInv_reinit (t : ConvState) (w h : Nat) (ht0 : t.dec = true) :
    ConvInv (buf_update (sws_update t w h) (image_buffer_size w h)) := by
  unfold buf_update sws_update
  split
  · refine ⟨fun hc => by simp [ht0] at hc, fun hc => by simp at hc, fun w' h' hwh => ?_⟩
    simp only [Option.some.injEq, Prod.mk.injEq] at hwh
    obtain ⟨rfl, rfl⟩ := hwh
    exact ⟨rfl, rfl, le_refl _⟩
  · rename_i hcond
    simp only [Bool.or_eq_true, Bool.not_eq_true', decide_eq_true_eq, not_or, gt_iff_lt,
      not_lt] at hcond
    refine ⟨fun hc => by simp [ht0] at hc, fun hc => by simp [hcond.1] at hc,
      fun w' h' hwh => ?_⟩
    simp only [Option.some.injEq, Prod.mk.injEq] at hwh
    obtain ⟨rfl, rfl⟩ := hwh
    exact ⟨rfl, rfl, hcond.2⟩

theorem convInv_post_init (s : ConvState) (e : FrameEvent) (hs : ConvInv s) :
    ConvInv (post_init s e) := by
  obtain ⟨h1, h2, h3⟩ := hs
  unfold post_init
  split
  · exact ⟨h1, h2, h3⟩
  · rename_i hdec
    obtain ⟨hsws, hba⟩ := h1 (by simpa using hdec)
    refine ⟨fun hc => by simp at hc, fun _ => h2 hba, fun w h hwh => ?_⟩
    simp only at hwh
    rw [hsws] at hwh
    exact absurd hwh (by simp)

theorem convert_scale_fst (t : ConvState) (e : FrameEvent) : (convert_scale t e).1 = t := by
  unfold convert_scale
  split
  · rfl
  · split
    · rfl
    · rfl

theorem convInv_core (s1 : ConvState) (e : FrameEvent) (hd : s1.dec = true)
    (hs : ConvInv s1) : ConvInv (convert_core s1 e).1 := by
  obtain ⟨i1, i2, i3⟩ := hs
  unfold convert_core
  split
  · exact ⟨i1, i2, i3⟩
  · split
    · split
      · exact ⟨fun hc => absurd (show s1.dec = false from hc) (by simp [hd]),
          fun hc => i2 hc,
          fun w h hwh => absurd (show (none : Option (Nat × Nat)) = some (w, h) from hwh)
            (by simp)⟩
      · rw [convert_scale_fst]
        exact convInv_reinit s1 e.frameW e.frameH hd
    · split
      · exact ⟨i1, i2, i3⟩
      · exact ⟨i1, i2, i3⟩

theorem convInv_step (s : ConvState) (e : FrameEvent) (hs : ConvInv s) :
    ConvInv (convert_ffmpeg s e).1 := by
  unfold convert_ffmpeg
  split
  · exact hs
  · exact convInv_core (post_init s e) e (post_init_dec s e) (convInv_post_init s e hs)

theorem convInv_run (s : ConvState) (evs : List FrameEvent) (hs : ConvInv s) :
    ConvInv (run_conv s evs) := by
  induction evs generalizing s with
  | nil => exact hs
  | cons e es ih => exact ih _ (convInv_step s e hs)

theorem post_init_buf (s : ConvState) (e : FrameEvent) :
    (post_init s e).bufAlloc = s.bufAlloc ∧ (post_init s e).bufCap = s.bufCap ∧
    (post_init s e).bufGen = s.bufGen ∧ (post_init s e).sws = s.sws ∧
    (post_init s e).swsGen = s.swsGen := by
  unfold post_init
  split <;> simp

theorem convert_core_dec (s1 : ConvState) (e : FrameEvent) :
    (convert_core s1 e).1.dec = s1.dec ∧ (convert_core s1 e).1.decGen = s1.decGen := by
  unfold convert_core
  split
  · exact ⟨rfl, rfl⟩
  · split
    · split
      · exact ⟨rfl, rfl⟩
      · rw [convert_scale_fst]
        unfold buf_update sws_update
        split <;> exact ⟨rfl, rfl⟩
    · split
      · exact ⟨rfl, rfl⟩
      · exact ⟨rfl, rfl⟩

/-- A decode failure (`avcodec_send_packet` or `avcodec_receive_frame`
failing) after the decoder exists returns -1 and leaves the persistent
state untouched. -/
theorem convert_decode_fail (s : ConvState) (e : FrameEvent) (hd : s.dec = true)
    (h : e.sendOk = false ∨ e.recvOk = false) :
    convert_ffmpeg s e = (s, Except.error ConvErr.decodeFailed) := by
  unfold convert_ffmpeg
  rw [if_neg (by simp [hd]), post_init_of_dec s e hd]
  unfold convert_core
  rw [if_pos (by rcases h with h | h <;> simp [h])]

/-- On the no-reinitialization path the state is returned unchanged. -/
theorem convert_noreinit_state (s1 : ConvState) (e : FrameEvent)
    (hre : needs_reinit s1 e = false) (hsr : ¬(!e.sendOk || !e.recvOk) = true) :
    (convert_core s1 e).1 = s1 := by
  unfold convert_core
  rw [if_neg hsr, if_neg (by simp [hre])]
  split
  · rfl
  · rfl

/-- On the successful reinitialization path the state is the rescale-context
and buffer update of the input state. -/
theorem convert_reinit_state (s1 : ConvState) (e : FrameEvent)
    (hre : needs_reinit s1 e = true) (hsr : ¬(!e.sendOk || !e.recvOk) = true)
    (hsws : e.swsInitOk = true) :
    (convert_core s1 e).1 =
      buf_update (sws_update s1 e.frameW e.frameH) (image_buffer_size e.frameW e.frameH) := by
  unfold convert_core
  rw [if_neg hsr, if_pos hre, if_neg (by simp [hsws]), convert_scale_fst]

/-- A successful convert call reports the buffer's allocated capacity as the
output size. -/
theorem convert_core_ok_size (s1 : ConvState) (e : FrameEvent) (sz : Nat)
    (h : (convert_core s1 e).2 = Except.ok sz) :
    sz = (convert_core s1 e).1.bufCap := by
  unfold convert_core at h ⊢
  by_cases h1 : (!e.sendOk || !e.recvOk) = true
  · rw [if_pos h1] at h
    exact absurd h (by simp)
  · rw [if_neg h1] at h ⊢
    by_cases h2 : needs_reinit s1 e = true
    · rw [if_pos h2] at h ⊢
      by_cases h3 : (!e.swsInitOk) = true
      · rw [if_pos h3] at h
        exact absurd h (by simp)
      · rw [if_neg h3] at h ⊢
        unfold convert_scale at h ⊢
        by_cases h4 : (!e.fillOk) = true
        · rw [if_pos h4] at h
          exact absurd h (by simp)
        · rw [if_neg h4] at h ⊢
          by_cases h5 : (!e.scaleOk) = true
          · rw [if_pos h5] at h
            exact absurd h (by simp)
          · rw [if_neg h5] at h ⊢
            simp only [Except.ok.injEq] at h
            exact h.symm
    · rw [if_neg h2] at h ⊢
      by_cases h5 : (!e.scaleOk) = true
      · rw [if_pos h5] at h
        exact absurd h (by simp)
      · rw [if_neg h5] at h ⊢
        simp only [Except.ok.injEq] at h
        exact h.symm

/-- A successful convert call went through exactly one of the two paths. -/
theorem convert_core_ok_cases (s1 : ConvState) (e : FrameEvent) (sz : Nat)
    (h : (convert_core s1 e).2 = Except.ok sz) :
    (needs_reinit s1 e = true ∧ (convert_core s1 e).1 =
      buf_update (sws_update s1 e.frameW e.frameH) (image_buffer_size e.frameW e.frameH)) ∨
    (needs_reinit s1 e = false ∧ (convert_core s1 e).1 = s1) := by
  by_cases h1 : (!e.sendOk || !e.recvOk) = true
  · exfalso
    unfold convert_core at h
    rw [if_pos h1] at h
    exact absurd h (by simp)
  · by_cases h2 : needs_reinit s1 e = true
    · left
      refine ⟨h2, ?_⟩
      by_cases h3 : e.swsInitOk = true
      · exact convert_reinit_state s1 e h2 h1 h3
      · exfalso
        unfold convert_core at h
        rw [if_neg h1, if_pos h2, if_pos (by simp [Bool.not_eq_true] at h3; simp [h3])] at h
        exact absurd h (by simp)
    · right
      have h2' : needs_reinit s1 e = false := by simpa using h2
      exact ⟨h2', convert_noreinit_state s1 e h2' h1⟩

/-- Buffer capacity is non-decreasing across one convert call. -/
theorem convert_core_cap_mono (s1 : ConvState) (e : FrameEvent)
    (h0 : s1.bufAlloc = false → s1.bufCap = 0) :
    s1.bufCap ≤ (convert_core s1 e).1.bufCap := by
  unfold convert_core
  by_cases h1 : (!e.sendOk || !e.recvOk) = true
  · rw [if_pos h1]
  · rw [if_neg h1]
    by_cases h2 : needs_reinit s1 e = true
    · rw [if_pos h2]
      by_cases h3 : (!e.swsInitOk) = true
      · rw [if_pos h3]
      · rw [if_neg h3, convert_scale_fst]
        exact buf_update_cap_mono (sws_update s1 e.frameW e.frameH) _ h0
    · rw [if_neg h2]
      split
      · exact le_refl _
      · exact le_refl _

/-- The buffer is reallocated only when the newly required size exceeds the
current capacity (given a buffer already exists). -/
theorem convert_core_bufGen (s1 : ConvState) (e : FrameEvent) (hba : s1.bufAlloc = true)
    (h : (convert_core s1 e).1.bufGen ≠ s1.bufGen) :
    s1.bufCap < image_buffer_size e.frameW e.frameH := by
  unfold convert_core at h
  by_cases h1 : (!e.sendOk || !e.recvOk) = true
  · rw [if_pos h1] at h
    exact absurd rfl h
  · rw [if_neg h1] at h
    by_cases h2 : needs_reinit s1 e = true
    · rw [if_pos h2] at h
      by_cases h3 : (!e.swsInitOk) = true
      · rw [if_pos h3] at h
        exact absurd rfl h
      · rw [if_neg h3, convert_scale_fst] at h
        exact buf_update_gen (sws_update s1 e.frameW e.frameH) _ hba h
    · rw [if_neg h2] at h
      split at h
      · exact absurd rfl h
      · exact absurd rfl h

/-- Any convert call on an all-successful frame event returns successfully:
the converter state is never poisoned by earlier failures. -/
theorem convert_allOk (s : ConvState) (e : FrameEvent) (h : e.allOk = true) :
    ∃ sz, (convert_ffmpeg s e).2 = Except.ok sz := by
  simp only [FrameEvent.allOk, Bool.and_eq_true] at h
  obtain ⟨⟨⟨⟨⟨hi, hsend⟩, hrecv⟩, hsw⟩, hf⟩, hsc⟩ := h
  unfold convert_ffmpeg
  rw [if_neg (by simp [hi])]
  unfold convert_core
  rw [if_neg (by simp [hsend, hrecv])]
  by_cases h2 : needs_reinit (post_init s e) e = true
  · rw [if_pos h2, if_neg (by simp [hsw])]
    unfold convert_scale
    rw [if_neg (by simp [hf]), if_neg (by simp [hsc])]
    exact ⟨_, rfl⟩
  · rw [if_neg h2, if_neg (by simp [hsc])]
    exact ⟨_, rfl⟩

/-- Unfolding of line 765's condition being false. -/
theorem needs_reinit_false (s1 : ConvState) (e : FrameEvent)
    (h : needs_reinit s1 e = false) :
    s1.sws.isNone = false ∧ s1.width = e.frameW ∧ s1.height = e.frameH := by
  unfold needs_reinit at h
  simp only [Bool.or_eq_false_iff, decide_eq_false_iff_not, not_not] at h
  exact ⟨h.1.1, h.1.2, h.2⟩

/-- Once the decoder context exists it is never freed or recreated by a
convert call. -/
theorem convert_dec_stable (s : ConvState) (e : FrameEvent) (h : s.dec = true) :
    (convert_ffmpeg s e).1.dec = true ∧ (convert_ffmpeg s e).1.decGen = s.decGen := by
  unfold convert_ffmpeg
  rw [if_neg (by simp [h]), post_init_of_dec s e h]
  obtain ⟨hdec, hgen⟩ := convert_core_dec s e
  exact ⟨hdec.trans h, hgen⟩

/-- The rescale context is recreated only when line 765's condition held. -/
theorem convert_swsGen_needs (s : ConvState) (e : FrameEvent) (hd : s.dec = true)
    (h : (convert_ffmpeg s e).1.swsGen ≠ s.swsGen) : needs_reinit s e = true := by
  unfold convert_ffmpeg at h
  rw [if_neg (by simp [hd]), post_init_of_dec s e hd] at h
  unfold convert_core at h
  by_cases h1 : (!e.sendOk || !e.recvOk) = true
  · rw [if_pos h1] at h
    exact absurd rfl h
  · rw [if_neg h1] at h
    by_cases h2 : needs_reinit s e = true
    · exact h2
    · exfalso
      rw [if_neg h2] at h
      split at h
      · exact absurd rfl h
      · exact absurd rfl h

theorem convert_cap_mono (s : ConvState) (e : FrameEvent)
    (h0 : s.bufAlloc = false → s.bufCap = 0) :
    s.bufCap ≤ (convert_ffmpeg s e).1.bufCap := by
  unfold convert_ffmpeg
  split
  · exact le_refl _
  · obtain ⟨hba, hbc, _, _, _⟩ := post_init_buf s e
    calc s.bufCap = (post_init s e).bufCap := hbc.symm
      _ ≤ (convert_core (post_init s e) e).1.bufCap :=
          convert_core_cap_mono _ e (fun hh => by
            rw [hbc]; exact h0 (by rw [← hba]; exact hh))

theorem convert_bufGen (s : ConvState) (e : FrameEvent) (hba : s.bufAlloc = true)
    (h : (convert_ffmpeg s e).1.bufGen ≠ s.bufGen) :
    s.bufCap < image_buffer_size e.frameW e.frameH := by
  unfold convert_ffmpeg at h
  split at h
  · exact absurd rfl h
  · obtain ⟨hba', hbc, hbg, _, _⟩ := post_init_buf s e
    have hcore := convert_core_bufGen (post_init s e) e (by rw [hba']; exact hba)
      (by rw [hbg]; exact h)
    rwa [hbc] at hcore

theorem convert_ok_size (s : ConvState) (e : FrameEvent) (sz : Nat)
    (h : (convert_ffmpeg s e).2 = Except.ok sz) :
    sz = (convert_ffmpeg s e).1.bufCap := by
  unfold convert_ffmpeg at h ⊢
  by_cases hg : (!s.dec && !e.initOk) = true
  · rw [if_pos hg] at h
    exact absurd h (by simp)
  · rw [if_neg hg] at h ⊢
    exact convert_core_ok_size _ e sz h

/-! ## Concrete inputs used by counterexamples and witnesses -/

/-- V4L2-sink configuration with conversion disabled. -/
def cfgV : Config := { no_convert := true, sink := SinkKind.v4l2Sink, target_frame_time := 100 }

/-- File-sink configuration with conversion disabled. -/
def cfgF : Config := { no_convert := true, sink := SinkKind.fileSink, target_frame_time := 100 }

/-- No-sink configuration with conversion enabled. -/
def cfgN : Config := { no_convert := false, sink := SinkKind.noSink, target_frame_time := 100 }

/-- Loop state with a fresh converter and no pending format set. -/
def ls0 : LoopState := { conv := init_conv, needFormatSet := false }

/-- An iteration in which capture succeeds and the sink `write` reports 5 of
the 10 supplied bytes written. -/
def envShort : IterEnv :=
  { captureRet := 0, getDataRet := 0, rawSize := 10, fe := evAll,
    writeN := 5, errnoVal := 0, fmtSetOk := true, elapsed := 100 }

/-- A converter state as left behind by a successful 4×2 convert. -/
def s0C4 : ConvState :=
  { dec := true, decGen := 1, sws := some (4, 2), swsGen := 1,
    bufAlloc := true, bufCap := 16, bufGen := 1, width := 4, height := 2 }

/-- A 6×2 frame that decodes and reinitializes fine but fails in
`sws_scale`. -/
def eC4 : FrameEvent := { evAll with frameW := 6, frameH := 2, scaleOk := false }

/-- A valid 2×2 frame event. -/
def eSmall : FrameEvent := { evAll with frameW := 2, frameH := 2 }

/-! ## Claims -/

/-- **C2** (the claim is the intended behavior; the code violates it):
`cli` accepts `--fps 0` — the guard only rejects negative values (part_004
lines 885-896), so the call returns 0 (keep running) with `target_fps = 0` —
and the pre-loop computation `target_frame_time = 1000000000L / target_fps`
(line 486) then divides by zero, which is undefined behavior in C rather
than the claimed "no pacing delay". -/
theorem c2_fps_zero_accepted_but_interval_divides_by_zero :
    (cli_run cli_defaults [CliOpt.fps true 0]).1 = 0 ∧
    (cli_run cli_defaults [CliOpt.fps true 0]).2.target_fps = 0 ∧
    compute_target_frame_time 0 = none :=
  ⟨rfl, rfl, rfl⟩

/-- **C3** (counterexample): `--version` makes `cli` return -1 (part_004
line 848) and `main` returns that value directly (lines 238-239), so the
informational command terminates the process with status -1 (reported by the
OS as 255), not with the claimed exit code 0. -/
theorem c3_counterexample :
    main_exit (cli_run cli_defaults [CliOpt.version]).1 0 false 0 = -1 ∧
    (-1 : Int) ≠ 0 :=
  ⟨rfl, by decide⟩

/-- **C3** (amended): informational commands (`--version`, `--status`,
`--help`) make `main` return -1 — a non-zero process exit status — rather
than 0, and a CLI argument error exits with 1. Provided no loopback control
device is open during cleanup (whose removal result otherwise overwrites
`ret`), the exit code is 1 exactly when the final value of `ret` is
negative: a clean interrupt shutdown (non-negative `ret`) exits 0, and a
fatal error that leaves a negative `ret` (capture or data-retrieval
failure, V4L2 write or format-set failure, or a setup failure reporting a
negative library code) exits 1 — but not every loop fatal error leaves a
negative `ret`: a file-sink write failure stores `errno` (part_004 line
516), a non-negative value, into `ret`, so that fatal error exits 0. -/
theorem c3_exit_codes (loopRet removeRet : Int) (cfg : Config) (s : LoopState)
    (env : IterEnv) :
    main_exit (cli_run cli_defaults [CliOpt.version]).1 loopRet false removeRet = -1 ∧
    main_exit (cli_run cli_defaults [CliOpt.status]).1 loopRet false removeRet = -1 ∧
    main_exit (cli_run cli_defaults [CliOpt.help]).1 loopRet false removeRet = -1 ∧
    main_exit (cli_run cli_defaults [CliOpt.unknown]).1 loopRet false removeRet = 1 ∧
    (0 ≤ loopRet → main_exit 0 loopRet false removeRet = 0) ∧
    (loopRet < 0 → main_exit 0 loopRet false removeRet = 1) ∧
    (cfg.sink = SinkKind.fileSink → env.captureRet = 0 → env.getDataRet = 0 →
      env.writeN ≠ (convert_step cfg.no_convert s.conv env.fe env.rawSize).size →
      (loop_iter cfg s env).ctl = LoopCtl.halt env.errnoVal ∧
      (0 ≤ env.errnoVal → main_exit 0 env.errnoVal false removeRet = 0)) := by
  refine ⟨rfl, rfl, rfl, rfl, fun hge => ?_, fun hlt => ?_, fun hsink hc hg hw => ?_⟩
  · unfold main_exit
    rw [if_neg (by simp), if_neg (by decide : ¬(false = true)), if_neg (by omega)]
  · unfold main_exit
    rw [if_neg (by simp), if_neg (by decide : ¬(false = true)), if_pos hlt]
  · constructor
    · unfold loop_iter
      rw [if_neg (by simp [hc]), if_neg (by simp [hg]), hsink]
      simp only [sink_step]
      rw [if_pos hw]
    · intro herr
      unfold main_exit
      rw [if_neg (by simp), if_neg (by decide : ¬(false = true)), if_neg (by omega)]

/-- Witness for `c3_exit_codes` at `loopRet = 0`, `removeRet = 0` and the
concrete file-sink short-write iteration `envShort`. -/
theorem c3_exit_codes_witness :
    main_exit (cli_run cli_defaults [CliOpt.version]).1 0 false 0 = -1 ∧
    main_exit (cli_run cli_defaults [CliOpt.status]).1 0 false 0 = -1 ∧
    main_exit (cli_run cli_defaults [CliOpt.help]).1 0 false 0 = -1 ∧
    main_exit (cli_run cli_defaults [CliOpt.unknown]).1 0 false 0 = 1 ∧
    ((0 : Int) ≤ 0 → main_exit 0 0 false 0 = 0) ∧
    ((0 : Int) < 0 → main_exit 0 0 false 0 = 1) ∧
    (cfgF.sink = SinkKind.fileSink → envShort.captureRet = 0 → envShort.getDataRet = 0 →
      envShort.writeN ≠ (convert_step cfgF.no_convert ls0.conv envShort.fe envShort.rawSize).size →
      (loop_iter cfgF ls0 envShort).ctl = LoopCtl.halt envShort.errnoVal ∧
      (0 ≤ envShort.errnoVal → main_exit 0 envShort.errnoVal false 0 = 0)) :=
  c3_exit_codes 0 0 cfgF ls0 envShort

/-- **C5** (the claim is the intended behavior; the code violates it): the
cleanup block assigns `ret = ioctl(v4l2loopback_fd, LOOP_CTL_REMOVE, ...)`
(part_004 line 563), so whenever the loopback control fd is open the exit
code is computed from the teardown result instead of the condition that
terminated the run: a device-removal failure turns a clean shutdown
(`ret = 0`) into exit code 1 — although it is logged only as a warning —
and a successful removal masks a fatal loop error (`ret = -1`) into exit
code 0. Without the loopback fd the exit code is unaffected. -/
theorem c5_teardown_overrides_exit_code :
    main_exit 0 0 true (-1) = 1 ∧ main_exit 0 0 false (-1) = 0 ∧
    main_exit 0 (-1) true 0 = 0 ∧ main_exit 0 (-1) false 0 = 1 ∧
    cleanup_logs true (-1) = [(LogLevel.warn, LogMsg.removeFailed)] :=
  ⟨rfl, rfl, rfl, rfl, rfl⟩

/-- **C10** (confirmed): `init_v4l2_device` retries `LOOP_CTL_ADD` once with
the automatic device number -1 when the attempt at the requested number
fails (part_004 lines 141-152): a successful first attempt uses its result;
a failed first attempt followed by a successful retry uses the retry's
result (so the device used may differ from the requested index); only two
failures make device creation fail. -/
theorem c10_loopback_add_retry (addRet : Int → Int) (requested : Int) :
    (0 ≤ addRet requested →
      create_loopback_device addRet requested = some (addRet requested)) ∧
    (addRet requested < 0 → 0 ≤ addRet (-1) →
      create_loopback_device addRet requested = some (addRet (-1))) ∧
    (addRet requested < 0 → addRet (-1) < 0 →
      create_loopback_device addRet requested = none) := by
  refine ⟨fun h1 => ?_, fun h1 h2 => ?_, fun h1 h2 => ?_⟩
  · unfold create_loopback_device
    rw [if_neg (by omega)]
  · unfold create_loopback_device
    rw [if_pos h1]
    simp only []
    rw [if_neg (by omega)]
  · unfold create_loopback_device
    rw [if_pos h1]
    simp only []
    rw [if_pos h2]

/-- Witness for `c10_loopback_add_retry`: requesting device 5 fails, the
automatic retry yields device 7, and the device used differs from the
requested one. -/
theorem c10_loopback_add_retry_witness :
    create_loopback_device (fun n => if n = -1 then 7 else -1) 5 = some 7 ∧
    (7 : Int) ≠ 5 :=
  ⟨(c10_loopback_add_retry (fun n => if n = -1 then 7 else -1) 5).2.1 (by decide) (by decide),
   by decide⟩

/-- **C1** (counterexample): in an iteration whose V4L2-sink `write` reports
5 of 10 bytes written, `write_to_v4l2_device` returns 0 (part_004 lines
211-214), so the capture loop does not terminate — it proceeds to `loop_end`
and the next iteration — and only a warning is logged; this contradicts the
claim that a short write to the virtual-device sink terminates the loop
with a non-zero exit. -/
theorem c1_counterexample :
    (write_to_v4l2_device 5 10).2 = 0 ∧
    (loop_iter cfgV ls0 envShort).ctl = LoopCtl.next 0 ∧
    (loop_iter cfgV ls0 envShort).logs = [(LogLevel.warn, LogMsg.shortWriteV4l2 5 10)] := by
  refine ⟨by decide, by decide, by decide⟩

/-- **C1** (amended): a *failed* V4L2 write (negative return) is fatal and
breaks the loop; a *short* V4L2 write (non-negative count different from
the supplied size) only logs a warning naming bytes-written vs.
bytes-expected and the loop continues. A short write to the file sink does
terminate the loop with a fatal log naming the two counts, but `ret` is set
to `errno` (a non-negative value), so the resulting exit code is not the
claimed guaranteed non-zero value. -/
theorem c1_sink_write_behavior (n sz : Int) (cfg : Config) (s : LoopState) (env : IterEnv)
    (hc : env.captureRet = 0) (hg : env.getDataRet = 0) :
    (n < 0 → write_to_v4l2_device n sz = ([(LogLevel.fatal, LogMsg.failedWriteV4l2)], -1)) ∧
    (0 ≤ n → n ≠ sz →
      write_to_v4l2_device n sz = ([(LogLevel.warn, LogMsg.shortWriteV4l2 n sz)], 0)) ∧
    (cfg.sink = SinkKind.fileSink →
      env.writeN ≠ (convert_step cfg.no_convert s.conv env.fe env.rawSize).size →
      (loop_iter cfg s env).ctl = LoopCtl.halt env.errnoVal ∧
      (LogLevel.fatal, LogMsg.shortWriteFile env.writeN
        (convert_step cfg.no_convert s.conv env.fe env.rawSize).size)
        ∈ (loop_iter cfg s env).logs) ∧
    (cfg.sink = SinkKind.v4l2Sink → (s.needFormatSet && !env.fmtSetOk) = false →
      env.writeN < 0 → (loop_iter cfg s env).ctl = LoopCtl.halt (-1)) ∧
    (cfg.sink = SinkKind.v4l2Sink → (s.needFormatSet && !env.fmtSetOk) = false →
      0 ≤ env.writeN →
      (loop_iter cfg s env).ctl =
        LoopCtl.next (pacer_sleep cfg.target_frame_time env.elapsed) ∧
      (env.writeN ≠ (convert_step cfg.no_convert s.conv env.fe env.rawSize).size →
        (LogLevel.warn, LogMsg.shortWriteV4l2 env.writeN
          (convert_step cfg.no_convert s.conv env.fe env.rawSize).size)
          ∈ (loop_iter cfg s env).logs)) := by
  refine ⟨fun hn => ?_, fun hn hne => ?_, fun hsink hw => ?_, fun hsink hfmt hw => ?_,
    fun hsink hfmt hw => ?_⟩
  · unfold write_to_v4l2_device
    rw [if_pos hn]
  · unfold write_to_v4l2_device
    rw [if_neg (by omega), if_pos hne]
  · unfold loop_iter
    rw [if_neg (by simp [hc]), if_neg (by simp [hg]), hsink]
    simp only [sink_step]
    rw [if_pos hw]
    exact ⟨rfl, by simp⟩
  · unfold loop_iter
    rw [if_neg (by simp [hc]), if_neg (by simp [hg]), hsink]
    simp only [sink_step]
    rw [if_neg (by simp [hfmt])]
    have hwr : (write_to_v4l2_device env.writeN
        (convert_step cfg.no_convert s.conv env.fe env.rawSize).size).2 = -1 := by
      unfold write_to_v4l2_device
      rw [if_pos hw]
    rw [if_pos (by rw [hwr]; decide)]
  · unfold loop_iter
    rw [if_neg (by simp [hc]), if_neg (by simp [hg]), hsink]
    simp only [sink_step]
    rw [if_neg (by simp [hfmt])]
    have hwr : (write_to_v4l2_device env.writeN
        (convert_step cfg.no_convert s.conv env.fe env.rawSize).size).2 = 0 := by
      unfold write_to_v4l2_device
      rw [if_neg (by omega)]
      split
      · rfl
      · rfl
    rw [if_neg (by rw [hwr]; decide)]
    refine ⟨rfl, fun hne => ?_⟩
    have hwl : (write_to_v4l2_device env.writeN
        (convert_step cfg.no_convert s.conv env.fe env.rawSize).size).1 =
        [(LogLevel.warn, LogMsg.shortWriteV4l2 env.writeN
          (convert_step cfg.no_convert s.conv env.fe env.rawSize).size)] := by
      unfold write_to_v4l2_device
      rw [if_neg (by omega), if_pos hne]
    simp [hwl]

/-- Witness for `c1_sink_write_behavior` at the concrete short-write
iteration `envShort` with the V4L2 sink. -/
theorem c1_sink_write_behavior_witness :
    ((-3 : Int) < 0 →
      write_to_v4l2_device (-3) 10 = ([(LogLevel.fatal, LogMsg.failedWriteV4l2)], -1)) ∧
    ((0 : Int) ≤ -3 → (-3 : Int) ≠ 10 →
      write_to_v4l2_device (-3) 10 = ([(LogLevel.warn, LogMsg.shortWriteV4l2 (-3) 10)], 0)) ∧
    (cfgV.sink = SinkKind.fileSink →
      envShort.writeN ≠ (convert_step cfgV.no_convert ls0.conv envShort.fe envShort.rawSize).size →
      (loop_iter cfgV ls0 envShort).ctl = LoopCtl.halt envShort.errnoVal ∧
      (LogLevel.fatal, LogMsg.shortWriteFile envShort.writeN
        (convert_step cfgV.no_convert ls0.conv envShort.fe envShort.rawSize).size)
        ∈ (loop_iter cfgV ls0 envShort).logs) ∧
    (cfgV.sink = SinkKind.v4l2Sink → (ls0.needFormatSet && !envShort.fmtSetOk) = false →
      envShort.writeN < 0 → (loop_iter cfgV ls0 envShort).ctl = LoopCtl.halt (-1)) ∧
    (cfgV.sink = SinkKind.v4l2Sink → (ls0.needFormatSet && !envShort.fmtSetOk) = false →
      0 ≤ envShort.writeN →
      (loop_iter cfgV ls0 envShort).ctl =
        LoopCtl.next (pacer_sleep cfgV.target_frame_time envShort.elapsed) ∧
      (envShort.writeN ≠ (convert_step cfgV.no_convert ls0.conv envShort.fe envShort.rawSize).size →
        (LogLevel.warn, LogMsg.shortWriteV4l2 envShort.writeN
          (convert_step cfgV.no_convert ls0.conv envShort.fe envShort.rawSize).size)
          ∈ (loop_iter cfgV ls0 envShort).logs)) :=
  c1_sink_write_behavior (-3) 10 cfgV ls0 envShort (by decide) (by decide)

/-- An iteration whose frame fails the one-time decoder initialization
(capture itself succeeds). -/
def envConvFail : IterEnv :=
  { captureRet := 0, getDataRet := 0, rawSize := 10, fe := { evAll with initOk := false },
    writeN := 10, errnoVal := 0, fmtSetOk := true, elapsed := 100 }

/-- **C4** (counterexample): a convert call on a 6×2 frame from a state
holding a 4×2 rescale context decodes fine, recreates the rescale context
for the new dimensions, and then fails in `sws_scale`; the call reports a
failure, yet the persistent rescale context is *not* left unchanged — it
now points at a freshly created 6×2 context — contradicting the claim that
every convert failure leaves the persistent converter state unchanged. -/
theorem c4_counterexample :
    (convert_ffmpeg s0C4 eC4).2 = Except.error ConvErr.scaleFailed ∧
    s0C4.sws = some (4, 2) ∧
    (convert_ffmpeg s0C4 eC4).1.sws = some (6, 2) ∧
    (convert_ffmpeg s0C4 eC4).1.sws ≠ s0C4.sws :=
  ⟨rfl, rfl, rfl, by decide⟩

/-- **C4** (amended): when convert fails, the iteration logs a warning,
substitutes the raw captured bytes (with their size) as that iteration's
output only, keeps exactly the converter state the call left behind, and
the loop continues; a decode failure occurring after the decoder exists
leaves the converter state fully unchanged; and no failure poisons the
state — any later call on a fully valid frame succeeds. (The rescale
context and buffer may be updated — not corrupted — by the dimension-change
path of the same failing call, as the counterexample shows.) -/
theorem c4_convert_failure_graceful (s' : ConvState) (e' e'' : FrameEvent) (cfg : Config)
    (s : LoopState) (env : IterEnv) (err : ConvErr)
    (hc : env.captureRet = 0) (hg : env.getDataRet = 0) (hnc : cfg.no_convert = false)
    (hfail : (convert_ffmpeg s.conv env.fe).2 = Except.error err) :
    ((loop_iter cfg s env).outputIsRaw = true ∧
     (loop_iter cfg s env).outputSize = (env.rawSize : Int) ∧
     (LogLevel.warn, LogMsg.convertFailed) ∈ (loop_iter cfg s env).logs ∧
     (loop_iter cfg s env).state.conv = (convert_ffmpeg s.conv env.fe).1 ∧
     (cfg.sink = SinkKind.noSink →
       (loop_iter cfg s env).ctl =
         LoopCtl.next (pacer_sleep cfg.target_frame_time env.elapsed))) ∧
    (s'.dec = true → (e'.sendOk = false ∨ e'.recvOk = false) →
      convert_ffmpeg s' e' = (s', Except.error ConvErr.decodeFailed)) ∧
    (e''.allOk = true → ∃ sz, (convert_ffmpeg s' e'').2 = Except.ok sz) := by
  have hco : convert_step cfg.no_convert s.conv env.fe env.rawSize =
      { conv := (convert_ffmpeg s.conv env.fe).1, isRaw := true, size := (env.rawSize : Int),
        logs := [(LogLevel.warn, LogMsg.convertFailed)] } := by
    unfold convert_step
    rw [hnc, if_neg (by decide : ¬(false = true)), hfail]
  refine ⟨?_, fun hd hse => convert_decode_fail s' e' hd hse,
    fun hall => convert_allOk s' e'' hall⟩
  unfold loop_iter
  rw [if_neg (by simp [hc]), if_neg (by simp [hg]), hco]
  cases hsink : cfg.sink with
  | fileSink =>
    simp only [sink_step]
    split
    · refine ⟨by simp, by simp, by simp, by simp, ?_⟩
      intro hcontra
      simp at hcontra
    · refine ⟨by simp, by simp, by simp, by simp, ?_⟩
      intro hcontra
      simp at hcontra
  | v4l2Sink =>
    simp only [sink_step]
    split
    · refine ⟨by simp, by simp, by simp, by simp, ?_⟩
      intro hcontra
      simp at hcontra
    · split
      · refine ⟨by simp, by simp, by simp, by simp, ?_⟩
        intro hcontra
        simp at hcontra
      · refine ⟨by simp, by simp, by simp, by simp, ?_⟩
        intro hcontra
        simp at hcontra
  | noSink =>
    simp only [sink_step]
    refine ⟨by simp, by simp, by simp, by simp, fun _ => by simp⟩

/-- Witness for `c4_convert_failure_graceful` at a concrete failing
iteration (`envConvFail` with the no-sink configuration). -/
theorem c4_convert_failure_graceful_witness :
    ((loop_iter cfgN ls0 envConvFail).outputIsRaw = true ∧
     (loop_iter cfgN ls0 envConvFail).outputSize = (envConvFail.rawSize : Int) ∧
     (LogLevel.warn, LogMsg.convertFailed) ∈ (loop_iter cfgN ls0 envConvFail).logs ∧
     (loop_iter cfgN ls0 envConvFail).state.conv =
       (convert_ffmpeg ls0.conv envConvFail.fe).1 ∧
     (cfgN.sink = SinkKind.noSink →
       (loop_iter cfgN ls0 envConvFail).ctl =
         LoopCtl.next (pacer_sleep cfgN.target_frame_time envConvFail.elapsed))) ∧
    (s0C4.dec = true →
      ({ evAll with sendOk := false } : FrameEvent).sendOk = false ∨
      ({ evAll with sendOk := false } : FrameEvent).recvOk = false →
      convert_ffmpeg s0C4 { evAll with sendOk := false } =
        (s0C4, Except.error ConvErr.decodeFailed)) ∧
    (evAll.allOk = true → ∃ sz, (convert_ffmpeg s0C4 evAll).2 = Except.ok sz) :=
  c4_convert_failure_graceful s0C4 { evAll with sendOk := false } evAll cfgN ls0 envConvFail
    ConvErr.initFailed rfl rfl rfl rfl

/-- A valid 6×2 frame event. -/
def eWide : FrameEvent := { evAll with frameW := 6 }

/-- **C6** (confirmed): once the decoder exists, no convert call frees or
recreates it (the decoder generation counter never changes); the rescale
context generation changes only on a call where line 765's condition held
(no context yet, or the decoded dimensions differ from the last-seen ones);
and a dimension change between consecutive valid frames triggers exactly
one rescale reinitialization — the call seeing the new dimensions bumps the
generation once, and the following call with the same dimensions leaves it
unchanged. -/
theorem c6_decoder_once_rescale_on_change (s : ConvState) (e e1 e2 : FrameEvent)
    (hd : s.dec = true) :
    ((convert_ffmpeg s e).1.dec = true ∧ (convert_ffmpeg s e).1.decGen = s.decGen) ∧
    ((convert_ffmpeg s e).1.swsGen ≠ s.swsGen → needs_reinit s e = true) ∧
    (e1.allOk = true → e2.allOk = true →
      (s.width ≠ e1.frameW ∨ s.height ≠ e1.frameH) →
      e2.frameW = e1.frameW → e2.frameH = e1.frameH →
      (convert_ffmpeg s e1).1.swsGen = s.swsGen + 1 ∧
      (convert_ffmpeg (convert_ffmpeg s e1).1 e2).1.swsGen = (convert_ffmpeg s e1).1.swsGen) := by
  refine ⟨convert_dec_stable s e hd, fun hch => convert_swsGen_needs s e hd hch, ?_⟩
  intro hall1 hall2 hne hw2 hh2
  simp only [FrameEvent.allOk, Bool.and_eq_true] at hall1 hall2
  obtain ⟨⟨⟨⟨⟨hi1, hsend1⟩, hrecv1⟩, hsw1⟩, hf1⟩, hsc1⟩ := hall1
  obtain ⟨⟨⟨⟨⟨hi2, hsend2⟩, hrecv2⟩, hsw2⟩, hf2⟩, hsc2⟩ := hall2
  have hsr1 : ¬(!e1.sendOk || !e1.recvOk) = true := by simp [hsend1, hrecv1]
  have hsr2 : ¬(!e2.sendOk || !e2.recvOk) = true := by simp [hsend2, hrecv2]
  have hre1 : needs_reinit s e1 = true := by
    unfold needs_reinit
    rcases hne with hne | hne
    · simp [hne]
    · simp [hne]
  have hstep1 : (convert_ffmpeg s e1).1 =
      buf_update (sws_update s e1.frameW e1.frameH) (image_buffer_size e1.frameW e1.frameH) := by
    unfold convert_ffmpeg
    rw [if_neg (by simp [hd]), post_init_of_dec s e1 hd]
    exact convert_reinit_state s e1 hre1 hsr1 hsw1
  obtain ⟨hbsws, hbswsGen, hbw, hbh, hbdec, _⟩ :=
    buf_update_fields (sws_update s e1.frameW e1.frameH) (image_buffer_size e1.frameW e1.frameH)
  have hd1 : (convert_ffmpeg s e1).1.dec = true := by
    rw [hstep1, hbdec]
    simpa [sws_update] using hd
  have hre2 : needs_reinit (convert_ffmpeg s e1).1 e2 = false := by
    unfold needs_reinit
    rw [hstep1, hbsws, hbw, hbh]
    simp [sws_update, hw2, hh2]
  have hunch : ∀ t : ConvState, t.dec = true → needs_reinit t e2 = false →
      (convert_ffmpeg t e2).1 = t := by
    intro t htd htre
    unfold convert_ffmpeg
    rw [if_neg (by simp [htd]), post_init_of_dec _ e2 htd]
    exact convert_noreinit_state _ e2 htre hsr2
  constructor
  · rw [hstep1, hbswsGen]
    simp [sws_update]
  · rw [hunch _ hd1 hre2]

/-- Witness for `c6_decoder_once_rescale_on_change`: from a 4×2 state, a 6×2
frame followed by another 6×2 frame. -/
theorem c6_decoder_once_rescale_on_change_witness :
    ((convert_ffmpeg s0C4 evAll).1.dec = true ∧
      (convert_ffmpeg s0C4 evAll).1.decGen = s0C4.decGen) ∧
    ((convert_ffmpeg s0C4 evAll).1.swsGen ≠ s0C4.swsGen → needs_reinit s0C4 evAll = true) ∧
    (eWide.allOk = true → eWide.allOk = true →
      (s0C4.width ≠ eWide.frameW ∨ s0C4.height ≠ eWide.frameH) →
      eWide.frameW = eWide.frameW → eWide.frameH = eWide.frameH →
      (convert_ffmpeg s0C4 eWide).1.swsGen = s0C4.swsGen + 1 ∧
      (convert_ffmpeg (convert_ffmpeg s0C4 eWide).1 eWide).1.swsGen =
        (convert_ffmpeg s0C4 eWide).1.swsGen) :=
  c6_decoder_once_rescale_on_change s0C4 evAll eWide eWide rfl

/-- **C7** (confirmed): across any run of convert calls from the initial
state, the output buffer's stored capacity never decreases; when a buffer
already exists, its generation changes (a reallocation happens) only
because the newly required byte size exceeds the current capacity; and the
size reported by a successful call never exceeds the capacity held after
the call. -/
theorem c7_buffer_capacity_monotone (evs : List FrameEvent) (e : FrameEvent) :
    (run_conv init_conv evs).bufCap ≤ (convert_ffmpeg (run_conv init_conv evs) e).1.bufCap ∧
    ((run_conv init_conv evs).bufAlloc = true →
      (convert_ffmpeg (run_conv init_conv evs) e).1.bufGen ≠ (run_conv init_conv evs).bufGen →
      (run_conv init_conv evs).bufCap < image_buffer_size e.frameW e.frameH) ∧
    (∀ sz, (convert_ffmpeg (run_conv init_conv evs) e).2 = Except.ok sz →
      sz ≤ (convert_ffmpeg (run_conv init_conv evs) e).1.bufCap) := by
  obtain ⟨j1, j2, j3⟩ := convInv_run init_conv evs convInv_init
  exact ⟨convert_cap_mono _ e j2, fun hba hgen => convert_bufGen _ e hba hgen,
    fun sz hok => le_of_eq (convert_ok_size _ e sz hok)⟩

/-- Witness for `c7_buffer_capacity_monotone` after a 4×2 frame followed by
a 2×2 frame. -/
theorem c7_buffer_capacity_monotone_witness :
    (run_conv init_conv [evAll]).bufCap ≤
      (convert_ffmpeg (run_conv init_conv [evAll]) eSmall).1.bufCap ∧
    ((run_conv init_conv [evAll]).bufAlloc = true →
      (convert_ffmpeg (run_conv init_conv [evAll]) eSmall).1.bufGen ≠
        (run_conv init_conv [evAll]).bufGen →
      (run_conv init_conv [evAll]).bufCap < image_buffer_size eSmall.frameW eSmall.frameH) ∧
    (∀ sz, (convert_ffmpeg (run_conv init_conv [evAll]) eSmall).2 = Except.ok sz →
      sz ≤ (convert_ffmpeg (run_conv init_conv [evAll]) eSmall).1.bufCap) :=
  c7_buffer_capacity_monotone [evAll] eSmall

/-- **C8** (counterexample): after a successful 4×2 convert (capacity 16), a
successful convert of a valid 2×2 frame returns size 16 — the buffer's
allocated capacity (part_004 line 818) — and not the logical image size
`2 * 2 * 2 = 8` of the target format at the frame's dimensions, refuting the
claim that the returned size is exactly `W * H * bytes_per_pixel`. -/
theorem c8_counterexample :
    (convert_ffmpeg init_conv evAll).2 = Except.ok 16 ∧
    (convert_ffmpeg (convert_ffmpeg init_conv evAll).1 eSmall).2 = Except.ok 16 ∧
    eSmall.frameW = 2 ∧ eSmall.frameH = 2 ∧ image_buffer_size 2 2 = 8 ∧ (16 : Nat) ≠ 8 :=
  ⟨rfl, rfl, rfl, rfl, rfl, by decide⟩

/-- **C8** (amended): the size a successful convert call returns is the
buffer's allocated capacity after the call, which is at least — but not
necessarily equal to — the logical image size `W * H * bytes_per_pixel` of
the target format at the decoded frame's dimensions (equality holds
whenever no larger frame inflated the capacity earlier in the run). -/
theorem c8_returned_size_is_capacity (evs : List FrameEvent) (e : FrameEvent) (sz : Nat)
    (h : (convert_ffmpeg (run_conv init_conv evs) e).2 = Except.ok sz) :
    sz = (convert_ffmpeg (run_conv init_conv evs) e).1.bufCap ∧
    image_buffer_size e.frameW e.frameH ≤ sz := by
  refine ⟨convert_ok_size _ e sz h, ?_⟩
  have hinv := convInv_run init_conv evs convInv_init
  unfold convert_ffmpeg at h
  by_cases hg : (!(run_conv init_conv evs).dec && !e.initOk) = true
  · rw [if_pos hg] at h
    exact absurd h (by simp)
  · rw [if_neg hg] at h
    obtain ⟨k1, k2, k3⟩ := convInv_post_init _ e hinv
    have hsz := convert_core_ok_size _ e sz h
    rcases convert_core_ok_cases _ e sz h with ⟨hre, hst⟩ | ⟨hre, hst⟩
    · rw [hst] at hsz
      rw [hsz]
      exact buf_update_cap_ge _ _
    · rw [hst] at hsz
      obtain ⟨hnone, hwe, hhe⟩ := needs_reinit_false _ e hre
      cases hp : (post_init (run_conv init_conv evs) e).sws with
      | none =>
        rw [hp] at hnone
        simp at hnone
      | some p =>
        obtain ⟨w, h2⟩ := p
        obtain ⟨hww, hhh, hle⟩ := k3 w h2 hp
        have hw' : w = e.frameW := by rw [← hww, hwe]
        have hh' : h2 = e.frameH := by rw [← hhh, hhe]
        rw [hsz, ← hw', ← hh']
        exact hle

/-- Witness for `c8_returned_size_is_capacity` at the run 4×2 then 2×2. -/
theorem c8_returned_size_is_capacity_witness :
    (16 : Nat) = (convert_ffmpeg (run_conv init_conv [evAll]) eSmall).1.bufCap ∧
    image_buffer_size eSmall.frameW eSmall.frameH ≤ 16 :=
  c8_returned_size_is_capacity [evAll] eSmall 16 rfl

/-- **C9** (confirmed): with target interval `1000000000 / F` nanoseconds
(computed once before the loop for a frame rate `F > 0`, without division by
zero), the pacing step sleeps exactly the remainder of the interval when the
measured elapsed time is below it and does not sleep otherwise; the sleep
amount is never negative; the iteration's total duration (elapsed work plus
sleep) is at least the target interval, so consecutive iteration starts are
spaced at least the interval apart; and every loop iteration that reaches
`loop_end` sleeps exactly `pacer_sleep target elapsed`. -/
theorem c9_pacing (F elapsed : Int) (cfg : Config) (s : LoopState) (env : IterEnv) (sl : Int)
    (hF : 0 < F) :
    0 ≤ pacer_sleep (1000000000 / F) elapsed ∧
    (elapsed < 1000000000 / F →
      pacer_sleep (1000000000 / F) elapsed = 1000000000 / F - elapsed) ∧
    (1000000000 / F ≤ elapsed → pacer_sleep (1000000000 / F) elapsed = 0) ∧
    1000000000 / F ≤ elapsed + pacer_sleep (1000000000 / F) elapsed ∧
    compute_target_frame_time F = some (1000000000 / F) ∧
    ((loop_iter cfg s env).ctl = LoopCtl.next sl →
      sl = pacer_sleep cfg.target_frame_time env.elapsed) := by
  refine ⟨?_, fun hlt => ?_, fun hge => ?_, ?_, ?_, fun hctl => ?_⟩
  · unfold pacer_sleep
    split
    · omega
    · omega
  · unfold pacer_sleep
    rw [if_pos hlt]
  · unfold pacer_sleep
    rw [if_neg (by omega)]
  · unfold pacer_sleep
    split
    · omega
    · omega
  · unfold compute_target_frame_time
    rw [if_neg (by omega)]
  · unfold loop_iter at hctl
    by_cases h1 : env.captureRet ≠ 0
    · rw [if_pos h1] at hctl
      exact absurd hctl (by simp)
    · rw [if_neg h1] at hctl
      by_cases h2 : env.getDataRet ≠ 0
      · rw [if_pos h2] at hctl
        exact absurd hctl (by simp)
      · rw [if_neg h2] at hctl
        cases hsink : cfg.sink with
        | fileSink =>
          rw [hsink] at hctl
          simp only [sink_step] at hctl
          split at hctl
          · exact absurd hctl (by simp)
          · simp only [LoopCtl.next.injEq] at hctl
            exact hctl.symm
        | v4l2Sink =>
          rw [hsink] at hctl
          simp only [sink_step] at hctl
          split at hctl
          · exact absurd hctl (by simp)
          · split at hctl
            · exact absurd hctl (by simp)
            · simp only [LoopCtl.next.injEq] at hctl
              exact hctl.symm
        | noSink =>
          rw [hsink] at hctl
          simp only [sink_step] at hctl
          simp only [LoopCtl.next.injEq] at hctl
          exact hctl.symm

/-- Witness for `c9_pacing` at `F = 30`, `elapsed = 5` and the concrete
short-write iteration. -/
theorem c9_pacing_witness :
    0 ≤ pacer_sleep (1000000000 / 30) 5 ∧
    ((5 : Int) < 1000000000 / 30 →
      pacer_sleep (1000000000 / 30) 5 = 1000000000 / 30 - 5) ∧
    ((1000000000 : Int) / 30 ≤ 5 → pacer_sleep (1000000000 / 30) 5 = 0) ∧
    (1000000000 : Int) / 30 ≤ 5 + pacer_sleep (1000000000 / 30) 5 ∧
    compute_target_frame_time 30 = some (1000000000 / 30) ∧
    ((loop_iter cfgN ls0 envShort).ctl = LoopCtl.next 0 →
      (0 : Int) = pacer_sleep cfgN.target_frame_time envShort.elapsed) :=
  c9_pacing 30 5 cfgN ls0 envShort 0 (by decide)

end Webcamize
